import Mathlib

/-!
Shallow embedding of the strategy-sniper launch pipeline (src/src/index.ts).

The handler reacting to an NFTStrategyLaunched event is modelled as a pure
function of an oracle (`Env`) recording the outcome of each external call the
handler can make (hook lookup, getSlot0, swap simulation, balance query, gas
estimation).  The function returns the ordered list of external actions the
handler performed together with the terminal outcome of the attempt.
-/

namespace Sniper

/-- Ethereum addresses, compared as unsigned integer values. -/
abbrev Addr := Nat

/-- ethers.ZeroAddress, the native-currency (ETH) sentinel used by the bot. -/
def zeroAddress : Addr := 0

/-- Uniswap V4 PoolKey tuple as in the router and pool-manager ABIs. -/
structure PoolKey where
  currency0 : Addr
  currency1 : Addr
  fee : Nat
  tickSpacing : Int
  hooks : Addr
  deriving DecidableEq

/-- PoolKey construction in the launch handler (index.ts lines 164-181):
currency0 is hardcoded to the zero address (ETH), currency1 to the launched
token, fee 0, tick spacing 60; no address comparison is performed. -/
def buildPoolKey (nftStrategy : Addr) (hooks : Addr) : PoolKey :=
  { currency0 := zeroAddress, currency1 := nftStrategy,
    fee := 0, tickSpacing := 60, hooks := hooks }

/-- Swap direction used by the handler (index.ts line 212): the constant true. -/
def zeroForOne : Bool := true

/-- PoolKeyBuilder following the specification's words (spec section 4.2):
compare the two addresses as unsigned integers and place the smaller in
currency0.  Declared only to be compared with the source's construction. -/
def poolKeyBuilderSpec (native token hooks : Addr) : PoolKey :=
  if native < token then
    { currency0 := native, currency1 := token, fee := 0, tickSpacing := 60, hooks := hooks }
  else
    { currency0 := token, currency1 := native, fee := 0, tickSpacing := 60, hooks := hooks }

/-- Slippage computation (index.ts lines 244-251): tokensOut is the absolute
value of amount1Delta, and minOut is tokensOut * 90n / 100n in bigint
arithmetic (division truncating toward zero). -/
def computeMinOut (amount1Delta : Int) : Int :=
  let tokensOut := if amount1Delta > 0 then amount1Delta else -amount1Delta
  tokensOut * 90 / 100

/-- Slot0 returned by poolManager.getSlot0. -/
structure Slot0 where
  sqrtPriceX96 : Nat
  tick : Int
  protocolFee : Nat
  lpFee : Nat
  deriving DecidableEq

/-- Oracle for the outcomes of the external calls one launch attempt can make.
`hookOverride` is the optional HOOK_ADDRESS configuration (none models the
empty string, which is falsy in the source's `HOOK_OVERRIDE || ...`);
`ethIn` is parseEther(ETH_AMOUNT_IN) in wei. -/
structure Env where
  hookOverride : Option Addr
  hookLookup : Except Unit Addr
  slot0 : Except Unit Slot0
  sim : Except Unit (Int × Int)
  balance : Except Unit Nat
  gasEstimate : Except Unit Nat
  ethIn : Nat

/-- External actions a launch attempt performs, in order. -/
inductive Action where
  | attachListener
  | hookLookupCall
  | getSlot0Call
  | simulateCall (minOutArg : Int)
  | warnSimFailed
  | balanceCall
  | estimateGasCall
  | submitSwap (amountIn : Nat) (minOut : Int) (dir : Bool) (key : PoolKey) (gasLimit : Nat)
  deriving DecidableEq

/-- Terminal outcome of one launch attempt. -/
inductive Outcome where
  | abortedHookResolution
  | abortedPoolNotFound
  | abortedInsufficientBalance
  | submitted (minOut : Int) (gasLimit : Nat)
  deriving DecidableEq

/-- Hook resolution result: HOOK_OVERRIDE short-circuits the factory lookup
(index.ts line 151). -/
def hookResult (env : Env) : Except Unit Addr :=
  match env.hookOverride with
  | some h => .ok h
  | none => env.hookLookup

/-- Fallback gas limit set in the overrides (index.ts line 263). -/
def defaultGasLimit : Nat := 1200000

/-- Gas estimation and swap submission (index.ts lines 302-336): a successful
estimate replaces the default gas limit by estimate * 120 / 100; a failed
estimate is logged and the default limit is kept; the swap is then submitted
either way. -/
def estimateAndSubmit (env : Env) (key : PoolKey) (minOut : Int) (acts : List Action) :
    List Action × Outcome :=
  let gasLimit : Nat :=
    match env.gasEstimate with
    | .ok g => g * 120 / 100
    | .error _ => defaultGasLimit
  (acts ++ [Action.estimateGasCall,
     Action.submitSwap env.ethIn minOut zeroForOne key gasLimit],
   Outcome.submitted minOut gasLimit)

/-- Swap simulation step (index.ts lines 220-258): a static call with minOut 0;
on success minOut becomes computeMinOut of amount1Delta, on failure a warning
is logged and minOut stays 0. -/
def simStep (env : Env) : List Action × Int :=
  match env.sim with
  | .ok r => ([Action.simulateCall 0], computeMinOut r.2)
  | .error _ => ([Action.simulateCall 0, Action.warnSimFailed], 0)

/-- Handler tail after the pool-existence check succeeded (index.ts lines
209-336): simulate, check the wallet balance (a balance below ethIn aborts; a
failed balance query is logged and ignored), then estimate gas and submit. -/
def afterPoolCheck (env : Env) (key : PoolKey) (acts : List Action) :
    List Action × Outcome :=
  let s := simStep env
  let acts := acts ++ s.1 ++ [Action.balanceCall]
  match env.balance with
  | .ok b =>
    if b < env.ethIn then (acts, Outcome.abortedInsufficientBalance)
    else estimateAndSubmit env key s.2 acts
  | .error _ => estimateAndSubmit env key s.2 acts

/-- Handler tail after hook resolution (index.ts lines 164-207): build the
PoolKey, then read getSlot0 for it; a failed read abandons the attempt. -/
def afterHook (env : Env) (nftStrategy : Addr) (acts : List Action) (hooks : Addr) :
    List Action × Outcome :=
  let key := buildPoolKey nftStrategy hooks
  match env.slot0 with
  | .error _ => (acts ++ [Action.getSlot0Call], Outcome.abortedPoolNotFound)
  | .ok _ => afterPoolCheck env key (acts ++ [Action.getSlot0Call])

/-- The NFTStrategyLaunched handler (index.ts lines 122-427).  The Transfer
listener attach (lines 131-145) only logs on failure and never affects the
flow; it is recorded as the first action.  Hook resolution uses the override
when present, otherwise the factory lookup, whose failure aborts. -/
def handleLaunch (env : Env) (nftStrategy : Addr) : List Action × Outcome :=
  match env.hookOverride with
  | some h => afterHook env nftStrategy [Action.attachListener] h
  | none =>
    match env.hookLookup with
    | .ok h => afterHook env nftStrategy [Action.attachListener, Action.hookLookupCall] h
    | .error _ =>
      ([Action.attachListener, Action.hookLookupCall], Outcome.abortedHookResolution)

/-- True on the submit action only: used to state that no write call occurs. -/
def isSubmit : Action → Bool
  | .submitSwap _ _ _ _ _ => true
  | _ => false

/-- True on the simulation static call only. -/
def isSimulate : Action → Bool
  | .simulateCall _ => true
  | _ => false

/-- True on a submitted outcome. -/
def isSubmitted : Outcome → Bool
  | .submitted _ _ => true
  | _ => false

/-- Balance-guard outcome of the pre-flight check (index.ts lines 279-295):
true exactly when the balance query succeeded and returned less than ethIn. -/
def balanceAborts (env : Env) : Bool :=
  match env.balance with
  | .ok b => decide (b < env.ethIn)
  | .error _ => false

/-- Oracle where every external call succeeds (lookup path, ample balance). -/
def envAllOk : Env :=
  { hookOverride := none, hookLookup := Except.ok 7,
    slot0 := Except.ok { sqrtPriceX96 := 1, tick := 0, protocolFee := 0, lpFee := 0 },
    sim := Except.ok (-50000000000000000, 1000000),
    balance := Except.ok 1000000000000000000, gasEstimate := Except.ok 100000,
    ethIn := 50000000000000000 }

/-- Oracle where the getSlot0 read fails (hook override set). -/
def envPoolFail : Env :=
  { hookOverride := some 7, hookLookup := Except.error (),
    slot0 := Except.error (), sim := Except.error (), balance := Except.ok 0,
    gasEstimate := Except.error (), ethIn := 50000000000000000 }

/-- Oracle where only the swap simulation fails. -/
def envSimFail : Env :=
  { hookOverride := some 7, hookLookup := Except.error (),
    slot0 := Except.ok { sqrtPriceX96 := 1, tick := 0, protocolFee := 0, lpFee := 0 },
    sim := Except.error (), balance := Except.ok 1000000000000000000,
    gasEstimate := Except.ok 100000, ethIn := 50000000000000000 }

/-- Oracle with a 0.01 ETH balance against a 0.05 ETH configured amount. -/
def envLowBalance : Env :=
  { hookOverride := some 7, hookLookup := Except.error (),
    slot0 := Except.ok { sqrtPriceX96 := 1, tick := 0, protocolFee := 0, lpFee := 0 },
    sim := Except.ok (-50000000000000000, 1000000),
    balance := Except.ok 10000000000000000, gasEstimate := Except.ok 100000,
    ethIn := 50000000000000000 }

/-- Oracle where only the gas estimation fails. -/
def envGasFail : Env :=
  { hookOverride := some 7, hookLookup := Except.error (),
    slot0 := Except.ok { sqrtPriceX96 := 1, tick := 0, protocolFee := 0, lpFee := 0 },
    sim := Except.ok (-50000000000000000, 1000000),
    balance := Except.ok 1000000000000000000, gasEstimate := Except.error (),
    ethIn := 50000000000000000 }

/-- Oracle where the balance query itself throws. -/
def envBalanceErr : Env :=
  { hookOverride := some 7, hookLookup := Except.error (),
    slot0 := Except.ok { sqrtPriceX96 := 1, tick := 0, protocolFee := 0, lpFee := 0 },
    sim := Except.ok (-50000000000000000, 1000000),
    balance := Except.error (), gasEstimate := Except.ok 100000,
    ethIn := 50000000000000000 }

/-- Oracle where no override is set and the factory hook lookup fails. -/
def envHookFail : Env :=
  { hookOverride := none, hookLookup := Except.error (),
    slot0 := Except.ok { sqrtPriceX96 := 1, tick := 0, protocolFee := 0, lpFee := 0 },
    sim := Except.ok (-50000000000000000, 1000000),
    balance := Except.ok 1000000000000000000, gasEstimate := Except.ok 100000,
    ethIn := 50000000000000000 }

/-- Any run of the handler whose outcome is a submitted swap performed both the
pool-existence read and the swap simulation: the source has a single execution
path, so no configuration can skip either check and still submit. -/
lemma submitted_invokes_checks (env : Env) (token : Addr)
    (h : isSubmitted (handleLaunch env token).2 = true) :
    Action.getSlot0Call ∈ (handleLaunch env token).1 ∧
    Action.simulateCall 0 ∈ (handleLaunch env token).1 := by
  obtain ⟨ho, hl, sl, sm, bal, gas, ei⟩ := env
  rcases ho with _ | hov <;> rcases hl with e | hlv <;> rcases sl with e2 | slv <;>
    rcases sm with e3 | smv <;> rcases bal with e4 | balv <;>
      simp_all [handleLaunch, afterHook, afterPoolCheck, estimateAndSubmit, simStep,
        isSubmitted] <;> split_ifs at * <;> simp_all

/-- C1, counterexample: the claim says the handler orders the currencies by an
explicit unsigned comparison of the native sentinel and the token.  At the
address pair (native 5, token 3) the key the handler builds for token 3 is not
the explicit-comparison key and does not place the smaller address 3 in
currency0: the handler hardcodes currency0 to the zero address, ignoring the
native sentinel value. -/
theorem c1_ordering_counterexample :
    buildPoolKey 3 99 ≠ poolKeyBuilderSpec 5 3 99 ∧
    (buildPoolKey 3 99).currency0 ≠ min 5 3 ∧
    (buildPoolKey 3 99).currency0 = zeroAddress := by decide

/-- C1, amended: for every token the handler-built PoolKey coincides with the
explicit-comparison builder evaluated at native = zero address (the hardcoded
sentinel): currency0 is the numerically smaller of the pair, and zeroForOne is
true iff the native currency is currency0 — but this holds because currency0
and zeroForOne are hardcoded and the zero address is minimal, not because a
comparison is computed. -/
theorem c1_ordering_amended (token hooks : Addr) :
    buildPoolKey token hooks = poolKeyBuilderSpec zeroAddress token hooks ∧
    (buildPoolKey token hooks).currency0 = min zeroAddress token ∧
    (zeroForOne = true ↔ (buildPoolKey token hooks).currency0 = zeroAddress) := by
  refine ⟨?_, ?_, ?_⟩
  · rcases Nat.eq_zero_or_pos token with ht | ht
    · subst ht
      simp [buildPoolKey, poolKeyBuilderSpec, zeroAddress]
    · simp [buildPoolKey, poolKeyBuilderSpec, zeroAddress, ht]
  · simp [buildPoolKey, zeroAddress]
  · simp [buildPoolKey, zeroForOne]

/-- C2: for every simulated token-leg delta d, the computed minimum-out equals
floor(abs d * 90 / 100), stated through Nat floor division of the absolute
value; in particular it is 0 when d = 0. -/
theorem c2_slippage_bound :
    (∀ d : Int, computeMinOut d = ((d.natAbs * 90 / 100 : Nat) : Int)) ∧
    computeMinOut 0 = 0 := by
  refine ⟨fun d => ?_, rfl⟩
  unfold computeMinOut
  have habs : (if d > 0 then d else -d) = (d.natAbs : Int) := by split <;> omega
  simp only [habs, Int.natCast_div, Nat.cast_mul, Nat.cast_ofNat]

/-- C3: when hook resolution succeeded and the getSlot0 read fails, the attempt
ends as abortedPoolNotFound and the trace contains no simulation, no balance
check and no write call; and, in contrast, a simulation-only failure (getSlot0
succeeded) never produces that abort and still reaches the balance check. -/
theorem c3_pool_check_aborts (env : Env) (token a : Addr)
    (hh : hookResult env = Except.ok a) :
    (env.slot0 = Except.error () →
      (handleLaunch env token).2 = Outcome.abortedPoolNotFound ∧
      ∀ act ∈ (handleLaunch env token).1,
        isSimulate act = false ∧ act ≠ Action.balanceCall ∧ isSubmit act = false) ∧
    (∀ s : Slot0, env.slot0 = Except.ok s → env.sim = Except.error () →
      (handleLaunch env token).2 ≠ Outcome.abortedPoolNotFound ∧
      Action.balanceCall ∈ (handleLaunch env token).1) := by
  obtain ⟨ho, hl, sl, sm, bal, gas, ei⟩ := env
  simp only [hookResult] at hh
  constructor
  · intro hs
    simp only at hs
    rcases ho with _ | hov <;> rcases hl with e | hlv <;>
      simp_all [handleLaunch, afterHook, isSimulate, isSubmit]
  · intro s hs hsim
    simp only at hs hsim
    rcases ho with _ | hov <;> rcases hl with e | hlv <;> rcases bal with e4 | balv <;>
      simp_all [handleLaunch, afterHook, afterPoolCheck, estimateAndSubmit, simStep] <;>
      split_ifs <;> simp_all

/-- C3, witness at a concrete oracle whose getSlot0 read fails. -/
theorem c3_pool_check_aborts_witness :
    (handleLaunch envPoolFail 3).2 = Outcome.abortedPoolNotFound ∧
    ∀ act ∈ (handleLaunch envPoolFail 3).1,
      isSimulate act = false ∧ act ≠ Action.balanceCall ∧ isSubmit act = false :=
  (c3_pool_check_aborts envPoolFail 3 7 rfl).1 rfl

/-- C4: when the swap simulation fails, the handler logs the warning, keeps
minimum-out at 0, and (unless the separate balance guard aborts) still submits
the swap with minimum-out 0. -/
theorem c4_sim_failure_degrades (env : Env) (token a : Addr) (s : Slot0)
    (hh : hookResult env = Except.ok a) (hs : env.slot0 = Except.ok s)
    (hsim : env.sim = Except.error ()) :
    Action.warnSimFailed ∈ (handleLaunch env token).1 ∧
    Action.simulateCall 0 ∈ (handleLaunch env token).1 ∧
    (balanceAborts env = false →
      ∃ g, (handleLaunch env token).2 = Outcome.submitted 0 g ∧
        Action.submitSwap env.ethIn 0 zeroForOne (buildPoolKey token a) g ∈
          (handleLaunch env token).1) := by
  obtain ⟨ho, hl, sl, sm, bal, gas, ei⟩ := env
  simp only [hookResult] at hh
  simp only at hs hsim
  simp only [balanceAborts]
  rcases ho with _ | hov <;> rcases hl with e | hlv <;> rcases bal with e4 | balv <;>
    rcases gas with e5 | gasv <;>
    simp_all [handleLaunch, afterHook, afterPoolCheck, estimateAndSubmit, simStep] <;>
    split_ifs <;> simp_all

/-- C4, witness at a concrete oracle whose simulation fails. -/
theorem c4_sim_failure_degrades_witness :
    Action.warnSimFailed ∈ (handleLaunch envSimFail 3).1 ∧
    ∃ g, (handleLaunch envSimFail 3).2 = Outcome.submitted 0 g ∧
      Action.submitSwap envSimFail.ethIn 0 zeroForOne (buildPoolKey 3 7) g ∈
        (handleLaunch envSimFail 3).1 :=
  ⟨(c4_sim_failure_degrades envSimFail 3 7 ⟨1, 0, 0, 0⟩ rfl rfl rfl).1,
   (c4_sim_failure_degrades envSimFail 3 7 ⟨1, 0, 0, 0⟩ rfl rfl rfl).2.2 rfl⟩

/-- C5: a successful balance query returning strictly less than ethIn aborts
the attempt with the insufficient-balance outcome and no write call occurs. -/
theorem c5_insufficient_balance_aborts (env : Env) (token a : Addr) (s : Slot0) (b : Nat)
    (hh : hookResult env = Except.ok a) (hs : env.slot0 = Except.ok s)
    (hb : env.balance = Except.ok b) (hlt : b < env.ethIn) :
    (handleLaunch env token).2 = Outcome.abortedInsufficientBalance ∧
    ∀ act ∈ (handleLaunch env token).1, isSubmit act = false := by
  obtain ⟨ho, hl, sl, sm, bal, gas, ei⟩ := env
  simp only [hookResult] at hh
  simp only at hs hb hlt
  rcases ho with _ | hov <;> rcases hl with e | hlv <;> rcases sm with e3 | smv <;>
    simp_all [handleLaunch, afterHook, afterPoolCheck, estimateAndSubmit, simStep,
      isSubmit]

/-- C5, witness: balance 0.01 ETH (10^16 wei) against amount-in 0.05 ETH
(5 * 10^16 wei) submits nothing. -/
theorem c5_insufficient_balance_aborts_witness :
    (handleLaunch envLowBalance 3).2 = Outcome.abortedInsufficientBalance ∧
    ∀ act ∈ (handleLaunch envLowBalance 3).1, isSubmit act = false :=
  c5_insufficient_balance_aborts envLowBalance 3 7 ⟨1, 0, 0, 0⟩ 10000000000000000
    rfl rfl rfl (by decide)

/-- C6: for attempts that reach submission, a failed gas estimation leaves the
gas limit at the fixed fallback constant 1200000 (which is nonzero) and still
submits, while a successful estimate g yields gas limit g * 120 / 100. -/
theorem c6_gas_limit_fallback (env : Env) (token a : Addr) (s : Slot0)
    (hh : hookResult env = Except.ok a) (hs : env.slot0 = Except.ok s)
    (hb : balanceAborts env = false) :
    (env.gasEstimate = Except.error () →
      ∃ m, (handleLaunch env token).2 = Outcome.submitted m defaultGasLimit ∧
        defaultGasLimit = 1200000 ∧ defaultGasLimit ≠ 0) ∧
    (∀ g, env.gasEstimate = Except.ok g →
      ∃ m, (handleLaunch env token).2 = Outcome.submitted m (g * 120 / 100)) := by
  obtain ⟨ho, hl, sl, sm, bal, gas, ei⟩ := env
  simp only [hookResult] at hh
  simp only at hs
  simp only [balanceAborts] at hb
  constructor
  · intro hg
    simp only at hg
    rcases ho with _ | hov <;> rcases hl with e | hlv <;> rcases sm with e3 | smv <;>
      rcases bal with e4 | balv <;>
      simp_all [handleLaunch, afterHook, afterPoolCheck, estimateAndSubmit, simStep,
        defaultGasLimit] <;>
      exact (if_neg (Nat.not_lt.mpr hb) : _ = _) ▸ ⟨_, rfl⟩
  · intro g hg
    simp only at hg
    rcases ho with _ | hov <;> rcases hl with e | hlv <;> rcases sm with e3 | smv <;>
      rcases bal with e4 | balv <;>
      simp_all [handleLaunch, afterHook, afterPoolCheck, estimateAndSubmit, simStep] <;>
      exact (if_neg (Nat.not_lt.mpr hb) : _ = _) ▸ ⟨_, rfl⟩

/-- C6, witness at a concrete oracle whose gas estimation fails. -/
theorem c6_gas_limit_fallback_witness :
    ∃ m, (handleLaunch envGasFail 3).2 = Outcome.submitted m defaultGasLimit ∧
      defaultGasLimit = 1200000 ∧ defaultGasLimit ≠ 0 :=
  (c6_gas_limit_fallback envGasFail 3 7 ⟨1, 0, 0, 0⟩ rfl rfl rfl).1 rfl

/-- C7, counterexample: the source has no ExecutionMode at all, so no run in
any configuration behaves as the claimed Fast mode — every run that submits a
swap has performed both the pool-existence read and the simulation. -/
theorem c7_mode_counterexample :
    ¬ ∃ (env : Env) (token : Addr),
        isSubmitted (handleLaunch env token).2 = true ∧
        (Action.getSlot0Call ∉ (handleLaunch env token).1 ∨
          ∀ act ∈ (handleLaunch env token).1, isSimulate act = false) := by
  rintro ⟨env, token, hsub, hbad⟩
  obtain ⟨h1, h2⟩ := submitted_invokes_checks env token hsub
  rcases hbad with hbad | hbad
  · exact hbad h1
  · have := hbad _ h2
    simp [isSimulate] at this

/-- C7, amended: the program has a single execution path (the Safe behavior,
with no mode configuration): every attempt that submits performed both the
pool-existence verification and the simulation before submission, and when the
verification fails the simulation is never invoked. -/
theorem c7_single_path_amended (env : Env) (token : Addr) :
    (isSubmitted (handleLaunch env token).2 = true →
      Action.getSlot0Call ∈ (handleLaunch env token).1 ∧
      Action.simulateCall 0 ∈ (handleLaunch env token).1) ∧
    (∀ a, hookResult env = Except.ok a → env.slot0 = Except.error () →
      ∀ act ∈ (handleLaunch env token).1, isSimulate act = false) := by
  constructor
  · exact submitted_invokes_checks env token
  · intro a hh hs
    obtain ⟨ho, hl, sl, sm, bal, gas, ei⟩ := env
    simp only [hookResult] at hh
    simp only at hs
    rcases ho with _ | hov <;> rcases hl with e | hlv <;>
      simp_all [handleLaunch, afterHook, isSimulate]

/-- C7, witness at a concrete all-successful oracle: the submitting run
performed both checks. -/
theorem c7_single_path_amended_witness :
    Action.getSlot0Call ∈ (handleLaunch envAllOk 3).1 ∧
    Action.simulateCall 0 ∈ (handleLaunch envAllOk 3).1 :=
  (c7_single_path_amended envAllOk 3).1 rfl

/-- C8: with no hook override configured, a failing factory hook lookup aborts
the attempt: the outcome is abortedHookResolution and the trace contains no
write call, no pool read and no simulation. -/
theorem c8_hook_failure_aborts (env : Env) (token : Addr)
    (hov : env.hookOverride = none) (hlk : env.hookLookup = Except.error ()) :
    (handleLaunch env token).2 = Outcome.abortedHookResolution ∧
    ∀ act ∈ (handleLaunch env token).1,
      isSubmit act = false ∧ act ≠ Action.getSlot0Call ∧ isSimulate act = false := by
  simp [handleLaunch, hov, hlk, isSubmit, isSimulate]

/-- C8, witness at a concrete oracle whose hook lookup fails. -/
theorem c8_hook_failure_aborts_witness :
    (handleLaunch envHookFail 3).2 = Outcome.abortedHookResolution ∧
    ∀ act ∈ (handleLaunch envHookFail 3).1,
      isSubmit act = false ∧ act ≠ Action.getSlot0Call ∧ isSimulate act = false :=
  c8_hook_failure_aborts envHookFail 3 rfl rfl

/-- C9: when the balance query itself throws, the attempt is not aborted: the
handler still performs gas estimation and submits the swap. -/
theorem c9_balance_error_proceeds (env : Env) (token a : Addr) (s : Slot0)
    (hh : hookResult env = Except.ok a) (hs : env.slot0 = Except.ok s)
    (hb : env.balance = Except.error ()) :
    Action.estimateGasCall ∈ (handleLaunch env token).1 ∧
    isSubmitted (handleLaunch env token).2 = true ∧
    ∃ m g, Action.submitSwap env.ethIn m zeroForOne (buildPoolKey token a) g ∈
      (handleLaunch env token).1 := by
  obtain ⟨ho, hl, sl, sm, bal, gas, ei⟩ := env
  simp only [hookResult] at hh
  simp only at hs hb
  rcases ho with _ | hov <;> rcases hl with e | hlv <;> rcases sm with e3 | smv <;>
    rcases gas with e5 | gasv <;>
    simp_all [handleLaunch, afterHook, afterPoolCheck, estimateAndSubmit, simStep,
      isSubmitted]

/-- C9, witness at a concrete oracle whose balance query throws. -/
theorem c9_balance_error_proceeds_witness :
    Action.estimateGasCall ∈ (handleLaunch envBalanceErr 3).1 ∧
    isSubmitted (handleLaunch envBalanceErr 3).2 = true ∧
    ∃ m g, Action.submitSwap envBalanceErr.ethIn m zeroForOne (buildPoolKey 3 7) g ∈
      (handleLaunch envBalanceErr 3).1 :=
  c9_balance_error_proceeds envBalanceErr 3 7 ⟨1, 0, 0, 0⟩ rfl rfl rfl

/-- C10: every PoolKey built by the handler carries fee 0 and tick spacing 60,
for every event payload and hook configuration. -/
theorem c10_pool_key_constants (token hooks : Addr) :
    (buildPoolKey token hooks).fee = 0 ∧ (buildPoolKey token hooks).tickSpacing = 60 :=
  ⟨rfl, rfl⟩

end Sniper
